import Mathlib

/-!
Shallow embedding of the commercia e-commerce backend core: the data model
(`src/api/models.py`), the mutation signal handlers (`src/api/signals.py`),
the cart merge service (`src/api/services/cart.py`) and the write
serializers (`src/api/serializers/...py`).  Django model rows become Lean
structures, the database becomes explicit lists of rows inside a `DB`
record, fixed-point decimal amounts become exact integers, and fallible
code returns `Except String`.
-/

/-- Fixed-point currency amounts (Django DecimalField values with two
decimal places) are embedded as exact integers counted in the smallest
currency unit; rating averages, which genuinely divide, stay rational. -/
abbrev Money := ℤ

/-- Row of the Product model (src/api/models.py lines 113 to 167).  Fields
not touched by any claim (description, image, categories, timestamps) are
omitted. -/
structure Product where
  product_id : Nat
  name : String
  price : Money
  stock : Int
  slug : String
deriving DecidableEq

/-- Row of the Order model (src/api/models.py lines 170 to 224): the
declared persisted fields.  total_amount defaults to 0.00 at creation. -/
structure Order where
  order_id : Nat
  user : Nat
  total_amount : Money
  status : String
deriving DecidableEq

/-- Row of the OrderItem model (src/api/models.py lines 227 to 267).
quantity is a PositiveIntegerField and price_at_order a non-null
DecimalField. -/
structure OrderItem where
  id : Nat
  order : Nat
  product : Nat
  quantity : Nat
  price_at_order : Money
deriving DecidableEq

/-- Row of the Cart model (src/api/models.py lines 270 to 318): owned by a
user (one-to-one, nullable) or identified by a guest cart_code. -/
structure Cart where
  cart_id : Nat
  user : Option Nat
  cart_code : Option String
deriving DecidableEq

/-- Row of the CartItem model (src/api/models.py lines 321 to 358). -/
structure CartItem where
  id : Nat
  cart : Nat
  product : Nat
  quantity : Nat
  is_active : Bool
deriving DecidableEq

/-- Modelled from the spec: the Review model class is imported by
src/api/signals.py, src/api/views.py and the review serializers but is not
among the source files.  Spec section 3 gives it (product, user), a bounded
numeric rating and a comment. -/
structure Review where
  review_id : Nat
  product : Nat
  user : Nat
  rating : Int
  comment : String
deriving DecidableEq

/-- Modelled from the spec: the ProductRating model class is imported by
src/api/signals.py but is not among the source files.  Spec section 3: one
derived row per product holding average_rating and total_ratings, written
only by the recomputation engine; it is keyed here by its product. -/
structure ProductRating where
  product : Nat
  average_rating : ℚ
  total_ratings : Nat
deriving DecidableEq

/-- Modelled from the spec: the Wishlist model class is imported by
src/api/views.py and src/api/serializers/product_serializers.py but is not
among the source files.  Spec section 3: one wishlist per user holding a set
of products (a many-to-many relation, so membership without duplicates). -/
structure Wishlist where
  wishlist_id : Nat
  user : Nat
  products : List Nat
deriving DecidableEq

/-- The persisted database state: one list of rows per model, plus one
counter supplying fresh primary keys for newly inserted rows. -/
structure DB where
  products : List Product
  orders : List Order
  orderItems : List OrderItem
  carts : List Cart
  cartItems : List CartItem
  reviews : List Review
  productRatings : List ProductRating
  wishlists : List Wishlist
  nextId : Nat
deriving DecidableEq

/-- Product.objects.get(pk=pid). -/
def DB.productById (db : DB) (pid : Nat) : Option Product :=
  db.products.find? (fun p => p.product_id == pid)

/-- SlugRelatedField lookup: Product.objects.get(slug=s). -/
def DB.productBySlug (db : DB) (s : String) : Option Product :=
  db.products.find? (fun p => p.slug == s)

/-- Order.objects.get(pk=oid). -/
def DB.orderById (db : DB) (oid : Nat) : Option Order :=
  db.orders.find? (fun o => o.order_id == oid)

/-- The reverse relation order.items.all() (related_name "items" on
OrderItem.order). -/
def DB.itemsOfOrder (db : DB) (oid : Nat) : List OrderItem :=
  db.orderItems.filter (fun it => it.order == oid)

/-- Review.objects.get(pk=rid). -/
def DB.reviewById (db : DB) (rid : Nat) : Option Review :=
  db.reviews.find? (fun r => r.review_id == rid)

/-- The reverse relation product.reviews.all(). -/
def DB.reviewsOf (db : DB) (pid : Nat) : List Review :=
  db.reviews.filter (fun r => r.product == pid)

/-- ProductRating row of a product, when present. -/
def DB.ratingOf (db : DB) (pid : Nat) : Option ProductRating :=
  db.productRatings.find? (fun pr => pr.product == pid)

/-- Persist the declared fields of an Order instance: the row with the same
primary key is overwritten, or inserted when absent (Django save). -/
def DB.saveOrder (db : DB) (o : Order) : DB :=
  if (db.orders.find? (fun r => r.order_id == o.order_id)).isSome then
    { db with orders := db.orders.map (fun r => if r.order_id == o.order_id then o else r) }
  else
    { db with orders := db.orders ++ [o] }

/-- Persist a CartItem instance whose primary key already exists. -/
def DB.saveCartItem (db : DB) (it : CartItem) : DB :=
  { db with cartItems := db.cartItems.map (fun r => if r.id == it.id then it else r) }

/-- Persist a ProductRating row (keyed by product, one row per product). -/
def DB.saveRating (db : DB) (pr : ProductRating) : DB :=
  { db with productRatings := db.productRatings.map (fun r => if r.product == pr.product then pr else r) }

/-- Persist a Wishlist row whose primary key already exists. -/
def DB.saveWishlist (db : DB) (w : Wishlist) : DB :=
  { db with wishlists := db.wishlists.map (fun r => if r.wishlist_id == w.wishlist_id then w else r) }

/-- An Order model instance in memory: its declared fields, plus the
transient Python attribute total_price that Order.calculate_total assigns.
total_price is not among the declared fields of the model, so save never
persists it. -/
structure OrderInstance where
  fields : Order
  total_price : Option Money
deriving DecidableEq

/-- The sum of price_at_order times quantity over the items of an order. -/
def DB.orderItemsSum (db : DB) (oid : Nat) : Money :=
  ((db.itemsOfOrder oid).map (fun it => it.price_at_order * (it.quantity : ℤ))).sum

/-- Order.calculate_total (src/api/models.py lines 212 to 218): sums
price_at_order times quantity over self.items.all(), assigns the result to
the attribute total_price — which is not a declared field of Order, so the
assignment only touches the in-memory instance — calls save, which persists
the declared fields unchanged, and returns the sum. -/
def calculate_total (db : DB) (inst : OrderInstance) : Money × OrderInstance × DB :=
  let total := db.orderItemsSum inst.fields.order_id
  let inst2 : OrderInstance := { inst with total_price := some total }
  (total, inst2, db.saveOrder inst2.fields)

/-- The update_order_total signal handler (src/api/signals.py lines 9 to
17): fired on every OrderItem post_save and post_delete; loads the owning
order, runs calculate_total (which saves) and saves once more.  When the
owning order row is absent (never the case in the flows below) it does
nothing. -/
def update_order_total (db : DB) (item : OrderItem) : DB :=
  match db.orderById item.order with
  | none => db
  | some row =>
    let r := calculate_total db ⟨row, none⟩
    (r.2.2).saveOrder r.2.1.fields

/-- OrderItem.objects.create: price_at_order has no default and its column
is NOT NULL, so a create that does not supply it fails with an
IntegrityError; a successful create inserts the row with a fresh primary
key and fires the post_save signal update_order_total.  The unique_together
(order, product) constraint is not modelled; no flow below inserts a
duplicate pair. -/
def orderItemCreate (db : DB) (oid pid qty : Nat) (price : Option Money) :
    Except String (DB × OrderItem) :=
  match price with
  | none => .error "IntegrityError: NOT NULL constraint failed: api_orderitem.price_at_order"
  | some pr =>
    let it : OrderItem := ⟨db.nextId, oid, pid, qty, pr⟩
    let db2 : DB := { db with orderItems := db.orderItems ++ [it], nextId := db.nextId + 1 }
    .ok (update_order_total db2 it, it)

/-- One validated (product, quantity) pair of the nested
OrderItemCreateSerializer (fields product and quantity only). -/
structure OrderItemInput where
  product : Nat
  quantity : Nat
deriving DecidableEq

/-- The for-loop of OrderCreateSerializer.create: for each pair, create an
OrderItem with price_at_order set to the current price of the product. -/
def orderCreateLoop (oid : Nat) (db : DB) : List OrderItemInput → Except String DB
  | [] => .ok db
  | inp :: rest =>
    match db.productById inp.product with
    | none => .error "Product matching query does not exist."
    | some p =>
      match orderItemCreate db oid inp.product inp.quantity (some p.price) with
      | .error e => .error e
      | .ok (db2, _) => orderCreateLoop oid db2 rest

/-- OrderCreateSerializer.create (src/api/serializers/order_serializers.py
lines 89 to 104): create the order row (total_amount takes its default
0.00), create an OrderItem per pair snapshotting the current product price,
then call calculate_total on the held instance and save it. -/
def order_create (db : DB) (user : Nat) (items : List OrderItemInput) (status : String) :
    Except String DB :=
  let order : Order := ⟨db.nextId, user, 0, status⟩
  let db1 : DB := { db with orders := db.orders ++ [order], nextId := db.nextId + 1 }
  match orderCreateLoop order.order_id db1 items with
  | .error e => .error e
  | .ok db2 =>
    let r := calculate_total db2 ⟨order, none⟩
    .ok ((r.2.2).saveOrder r.2.1.fields)

/-- The post_delete signals fired by the cascade delete of a queryset of
OrderItems: update_order_total runs once per deleted row. -/
def fireItemDeleteSignals (db : DB) : List OrderItem → DB
  | [] => db
  | it :: rest => fireItemDeleteSignals (update_order_total db it) rest

/-- The for-loop of OrderCreateSerializer.update: each incoming dict holds
only product and quantity, so OrderItem.objects.create receives no
price_at_order. -/
def orderUpdateLoop (oid : Nat) (db : DB) : List OrderItemInput → Except String DB
  | [] => .ok db
  | inp :: rest =>
    match orderItemCreate db oid inp.product inp.quantity none with
    | .error e => .error e
    | .ok (db2, _) => orderUpdateLoop oid db2 rest

/-- OrderCreateSerializer.update (src/api/serializers/order_serializers.py
lines 106 to 119): inside one atomic block, when an item list is supplied,
delete every existing item of the order and create the new list fresh; then
call calculate_total on the held instance and save it.  An error inside the
atomic block rolls the whole operation back, which the Except embedding
renders by returning the error with no new state. -/
def order_update (db : DB) (oid : Nat) (items : Option (List OrderItemInput)) :
    Except String DB :=
  match db.orderById oid with
  | none => .error "Order matching query does not exist."
  | some row =>
    let step : Except String DB :=
      match items with
      | none => .ok db
      | some list =>
        let deleted := db.itemsOfOrder oid
        let db1 : DB := { db with orderItems := db.orderItems.filter (fun it => !(it.order == oid)) }
        orderUpdateLoop oid (fireItemDeleteSignals db1 deleted) list
    match step with
    | .error e => .error e
    | .ok db2 =>
      let r := calculate_total db2 ⟨row, none⟩
      .ok ((r.2.2).saveOrder r.2.1.fields)

/-- The price branch of ProductCreateUpdateSerializer.update
(src/api/serializers/product_serializers.py lines 48 to 69): validate_price
rejects a negative price, otherwise the product row is saved with the new
price. -/
def product_set_price (db : DB) (pid : Nat) (newPrice : Money) : Except String DB :=
  if newPrice < 0 then .error "Price must be a non-negative value."
  else
    match db.productById pid with
    | none => .error "Product matching query does not exist."
    | some _ =>
      .ok { db with products := db.products.map (fun r => if r.product_id == pid then { r with price := newPrice } else r) }

/-- The operations that touch orders, order items or product prices. -/
inductive OrderOp
  | createOrder (user : Nat) (items : List OrderItemInput) (status : String)
  | updateOrder (oid : Nat) (items : Option (List OrderItemInput))
  | setPrice (pid : Nat) (price : Money)
deriving DecidableEq

/-- Dispatch an OrderOp against the database. -/
def applyOrderOp (db : DB) : OrderOp → Except String DB
  | .createOrder u its st => order_create db u its st
  | .updateOrder oid its => order_update db oid its
  | .setPrice pid pr => product_set_price db pid pr

/-- The reverse relation manager names available on a Cart instance, as
declared in src/api/models.py: CartItem.cart carries related_name "items"
(line 340), and no relation into Cart declares the name "cartitems". -/
def cartReverseRelations : List String := ["items"]

/-- Attribute access cart.name for a reverse item relation on a Cart
instance: the related CartItem rows when the accessor exists, otherwise the
AttributeError that Python raises for an undefined attribute. -/
def cartRelatedItems (db : DB) (cid : Nat) (name : String) : Except String (List CartItem) :=
  if name ∈ cartReverseRelations then .ok (db.cartItems.filter (fun it => it.cart == cid))
  else .error ("AttributeError: Cart object has no attribute " ++ name)

/-- Cascade delete of a cart: the cart row and every item pointing at it. -/
def DB.deleteCart (db : DB) (cid : Nat) : DB :=
  { db with carts := db.carts.filter (fun c => !(c.cart_id == cid)),
            cartItems := db.cartItems.filter (fun it => !(it.cart == cid)) }

/-- The for-loop of merge_carts: per source item, find-or-create the
destination item for the same product through user_cart.cartitems (again
the undeclared accessor name), copying the quantity on creation and adding
the quantities when the item already exists. -/
def mergeLoop (dstId : Nat) (db : DB) : List CartItem → Except String DB
  | [] => .ok db
  | item :: rest =>
    match cartRelatedItems db dstId "cartitems" with
    | .error e => .error e
    | .ok existing =>
      match existing.find? (fun ci => ci.product == item.product) with
      | some ci => mergeLoop dstId (db.saveCartItem { ci with quantity := ci.quantity + item.quantity }) rest
      | none =>
        mergeLoop dstId
          { db with cartItems := db.cartItems ++ [⟨db.nextId, dstId, item.product, item.quantity, true⟩],
                    nextId := db.nextId + 1 } rest

/-- merge_carts (src/api/services/cart.py lines 3 to 14): inside one atomic
block, iterate session_cart.cartitems.all(), find-or-create each item on
the user cart, then delete the session cart.  Both accesses spell the
accessor "cartitems" while the declared reverse relation is "items"; the
Except embedding returns the AttributeError, and the atomic block means an
error leaves no new state. -/
def merge_carts (db : DB) (session_cart user_cart : Nat) : Except String DB :=
  match cartRelatedItems db session_cart "cartitems" with
  | .error e => .error e
  | .ok items =>
    match mergeLoop user_cart db items with
    | .error e => .error e
    | .ok db2 => .ok (db2.deleteCart session_cart)

/-- Cart.objects.get_or_create(user=user). -/
def cartGetOrCreateForUser (db : DB) (user : Nat) : DB × Nat :=
  match db.carts.find? (fun c => c.user == some user) with
  | some c => (db, c.cart_id)
  | none =>
    ({ db with carts := db.carts ++ [⟨db.nextId, some user, none⟩], nextId := db.nextId + 1 },
     db.nextId)

/-- The handle_cart_merge signal handler (src/api/signals.py lines 20 to
36): on user_logged_in, return at once when the session has no key; return
when no guest cart is keyed by the session key (Cart.DoesNotExist); else
get-or-create the user cart and call merge_carts. -/
def handle_cart_merge (db : DB) (user : Nat) (session_key : Option String) :
    Except String DB :=
  match session_key with
  | none => .ok db
  | some key =>
    if key = "" then .ok db
    else
      match db.carts.find? (fun c => c.cart_code == some key && c.user == none) with
      | none => .ok db
      | some sc =>
        let r := cartGetOrCreateForUser db user
        merge_carts r.1 sc.cart_id r.2

/-- The raw quantity field of one incoming cart item payload, before
validation. -/
inductive QtyInput
  | missing
  | intVal (n : Nat)
  | nonInt
deriving DecidableEq

/-- Validation of the quantity field, an IntegerField with default 1
(src/api/serializers/cart_serializers.py line 68): a missing value takes
the default, a non-integer value is a validation error.  The declared
serializer field carries no positivity bound; negative payloads, rejected
only by the positive-integer column, are outside every claim and the
modelled values are naturals. -/
def validateQuantity : QtyInput → Except String Nat
  | .missing => .ok 1
  | .intVal n => .ok n
  | .nonInt => .error "A valid integer is required."

/-- One incoming item payload of CartCreateUpdateSerializer: a product
slug (SlugRelatedField), a quantity and an optional is_active flag. -/
structure CartItemInput where
  product : String
  quantity : QtyInput
  is_active : Option Bool
deriving DecidableEq

/-- Validation of the nested item list: each slug must name an existing
product and each quantity must validate; is_active defaults to true.  All
validation precedes any persistence. -/
def validateItems (db : DB) : List CartItemInput → Except String (List (Nat × Nat × Bool))
  | [] => .ok []
  | i :: rest =>
    match db.productBySlug i.product with
    | none => .error ("Object with slug=" ++ i.product ++ " does not exist.")
    | some p =>
      match validateQuantity i.quantity with
      | .error e => .error e
      | .ok q =>
        match validateItems db rest with
        | .error e => .error e
        | .ok restV => .ok ((p.product_id, q, i.is_active.getD true) :: restV)

/-- The for-loop of CartCreateUpdateSerializer.update (lines 108 to 116):
per validated item, CartItem.objects.get_or_create keyed by (cart,
product) with the quantity and flag as creation defaults; when the item
already exists its quantity is incremented by the supplied quantity and
is_active is overwritten. -/
def cartUpdateLoop (cid : Nat) (db : DB) : List (Nat × Nat × Bool) → DB
  | [] => db
  | (pid, qty, active) :: rest =>
    match db.cartItems.find? (fun it => it.cart == cid && it.product == pid) with
    | some it =>
      cartUpdateLoop cid (db.saveCartItem { it with quantity := it.quantity + qty, is_active := active }) rest
    | none =>
      cartUpdateLoop cid
        { db with cartItems := db.cartItems ++ [⟨db.nextId, cid, pid, qty, active⟩],
                  nextId := db.nextId + 1 } rest

/-- CartCreateUpdateSerializer.update (src/api/serializers/cart_serializers.py
lines 105 to 118) on an existing cart: validate the incoming items, then
run the get-or-create loop. -/
def cart_update (db : DB) (cid : Nat) (items : List CartItemInput) : Except String DB :=
  match validateItems db items with
  | .error e => .error e
  | .ok v => .ok (cartUpdateLoop cid db v)

/-- CartCreateUpdateSerializer.create (lines 85 to 103) on an anonymous
request: validate the items, Cart.objects.get_or_create keyed by the
session cart code, then delegate to the update loop. -/
def cart_create_guest (db : DB) (session_key : String) (items : List CartItemInput) :
    Except String DB :=
  match validateItems db items with
  | .error e => .error e
  | .ok v =>
    match db.carts.find? (fun c => c.cart_code == some session_key) with
    | some c => .ok (cartUpdateLoop c.cart_id db v)
    | none =>
      let cid := db.nextId
      let db1 : DB := { db with carts := db.carts ++ [⟨cid, none, some session_key⟩],
                                nextId := db.nextId + 1 }
      .ok (cartUpdateLoop cid db1 v)

/-- The update_product_rating signal handler (src/api/signals.py lines 38
to 52): fired on every Review post_save and post_delete; aggregates Avg and
Count over the reviews of the product, get-or-creates the ProductRating
row, stores the average — which the expression average or 0.0 turns into
0.0 when the aggregate over an empty set is NULL — and the count, and
saves. -/
def update_product_rating (db : DB) (pid : Nat) : DB :=
  let rs := db.reviewsOf pid
  let avg : Option ℚ :=
    if rs.isEmpty then none
    else some (((rs.map (fun r => (r.rating : ℚ))).sum) / (rs.length : ℚ))
  let total := rs.length
  match db.ratingOf pid with
  | some pr => db.saveRating { pr with average_rating := avg.getD 0, total_ratings := total }
  | none =>
    { db with productRatings := db.productRatings ++ [⟨pid, avg.getD 0, total⟩] }

/-- Review creation (ReviewCreateSerializer plus model save): insert the
row, then the post_save signal runs update_product_rating. -/
def review_create (db : DB) (pid user : Nat) (rating : Int) (comment : String) : DB :=
  let r : Review := ⟨db.nextId, pid, user, rating, comment⟩
  update_product_rating
    { db with reviews := db.reviews ++ [r], nextId := db.nextId + 1 } r.product

/-- Review rating update: overwrite the rating of the row, then the
post_save signal runs update_product_rating.  A missing review id is a
lookup failure before any write. -/
def review_update_rating (db : DB) (rid : Nat) (rating : Int) : DB :=
  match db.reviewById rid with
  | none => db
  | some r =>
    update_product_rating
      { db with reviews := db.reviews.map (fun x => if x.review_id == rid then { x with rating := rating } else x) }
      r.product

/-- Review deletion: remove the row, then the post_delete signal runs
update_product_rating. -/
def review_delete (db : DB) (rid : Nat) : DB :=
  match db.reviewById rid with
  | none => db
  | some r =>
    update_product_rating
      { db with reviews := db.reviews.filter (fun x => !(x.review_id == rid)) } r.product

/-- The recomputation target stated by the spec: the mean of the rating
values of the reviews of the product, 0.0 when there are none. -/
def ratingSpecAvg (db : DB) (pid : Nat) : ℚ :=
  let rs := db.reviewsOf pid
  if rs.length = 0 then 0 else ((rs.map (fun r => (r.rating : ℚ))).sum) / (rs.length : ℚ)

/-- The recomputation target stated by the spec: the count of the reviews
of the product. -/
def ratingSpecCount (db : DB) (pid : Nat) : Nat :=
  (db.reviewsOf pid).length

/-- WishlistCreateUpdateSerializer.create
(src/api/serializers/product_serializers.py lines 113 to 124) with the user
supplied by perform_create: get-or-create the wishlist of the user; when
newly created add the product; when the product is already a member remove
it; otherwise add it.  The many-to-many add inserts no duplicate link. -/
def wishlist_toggle (db : DB) (user pid : Nat) : DB :=
  match db.wishlists.find? (fun w => w.user == user) with
  | none =>
    { db with wishlists := db.wishlists ++ [⟨db.nextId, user, [pid]⟩], nextId := db.nextId + 1 }
  | some w =>
    if pid ∈ w.products then
      db.saveWishlist { w with products := w.products.filter (fun x => !(x == pid)) }
    else
      db.saveWishlist { w with products := w.products ++ [pid] }

/-- Membership of a product in the wishlist of a user, read back from the
database. -/
def wishlistHas (db : DB) (user pid : Nat) : Bool :=
  match db.wishlists.find? (fun w => w.user == user) with
  | none => false
  | some w => pid ∈ w.products

deriving instance DecidableEq for Except

/-- Two products priced 10.00 and 5.00, an otherwise empty database. -/
def dbOrderEx : DB :=
  ⟨[⟨1, "P1", 10, 5, "p1"⟩, ⟨2, "P2", 5, 5, "p2"⟩], [], [], [], [], [], [], [], 3⟩

/-- A guest cart (id 1) holding product 1 at quantity 2 and a user cart
(id 2) holding the same product at quantity 3. -/
def dbMergeEx : DB :=
  ⟨[⟨1, "P", 10, 5, "p"⟩], [], [],
   [⟨1, none, some "sess"⟩, ⟨2, some 7, none⟩],
   [⟨10, 1, 1, 2, true⟩, ⟨11, 2, 1, 3, true⟩], [], [], [], 12⟩

/-- A lone guest cart keyed by session key "sess" with no items at all. -/
def dbEmptyMergeEx : DB := ⟨[], [], [], [⟨1, none, some "sess"⟩], [], [], [], [], 2⟩

/-- A user cart (id 1) holding product 1 at quantity 3. -/
def dbCartEx : DB :=
  ⟨[⟨1, "P", 10, 5, "p"⟩], [], [], [⟨1, some 7, none⟩], [⟨5, 1, 1, 3, true⟩], [], [], [], 6⟩

/-- An order (id 1, persisted total 10.00) holding one item of product 1 at
quantity 1 with snapshot price 10.00. -/
def dbOrderUpdEx : DB :=
  ⟨[⟨1, "P", 10, 5, "p"⟩], [⟨1, 7, 10, "pending"⟩], [⟨2, 1, 1, 1, 10⟩], [], [], [], [], [], 3⟩

/-- One product with slug "p" and no carts: the add-to-cart scenario. -/
def dbAddEx : DB := ⟨[⟨1, "P", 10, 5, "p"⟩], [], [], [], [], [], [], [], 2⟩

/-- Product 1 carrying two reviews rated 4 and 5. -/
def dbReviewEx : DB :=
  ⟨[⟨1, "P", 10, 5, "p"⟩], [], [], [], [], [⟨3, 1, 7, 4, ""⟩, ⟨4, 1, 8, 5, ""⟩], [], [], 9⟩

/-- One product and one order item snapshotting its old price 10.00. -/
def dbSnapshotEx : DB :=
  ⟨[⟨1, "P", 10, 5, "p"⟩], [⟨1, 7, 0, "pending"⟩], [⟨2, 1, 1, 2, 10⟩], [], [], [], [], [], 3⟩

/-- The state of dbSnapshotEx after the price of product 1 moves to 3.00. -/
def dbSnapshotExAfter : DB :=
  ⟨[⟨1, "P", 3, 5, "p"⟩], [⟨1, 7, 0, "pending"⟩], [⟨2, 1, 1, 2, 10⟩], [], [], [], [], [], 3⟩

theorem find?_map_update {α : Type} (p q : α → Bool) (y : α) (hy : p y = true) :
    ∀ (l : List α) (w : α), l.find? p = some w → q w = true →
      (l.map (fun r => if q r then y else r)).find? p = some y := by
  intro l
  induction l with
  | nil => intro w hw _; simp at hw
  | cons a t ih =>
    intro w hw hq
    by_cases hqa : q a = true
    · simp only [List.map_cons, if_pos hqa, List.find?_cons, hy]
    · rw [List.find?_cons] at hw
      cases hpa : p a with
      | true =>
        rw [hpa] at hw
        simp only [Option.some.injEq] at hw
        subst hw
        exact absurd hq hqa
      | false =>
        rw [hpa] at hw
        simp only [List.map_cons, if_neg hqa, List.find?_cons, hpa]
        exact ih w hw hq

theorem saveOrder_frame (db : DB) (o : Order) :
    (db.saveOrder o).products = db.products ∧ (db.saveOrder o).orderItems = db.orderItems ∧
    (db.saveOrder o).carts = db.carts ∧ (db.saveOrder o).cartItems = db.cartItems ∧
    (db.saveOrder o).nextId = db.nextId := by
  unfold DB.saveOrder
  split <;> exact ⟨rfl, rfl, rfl, rfl, rfl⟩

theorem update_order_total_frame (db : DB) (it : OrderItem) :
    (update_order_total db it).products = db.products ∧
    (update_order_total db it).orderItems = db.orderItems ∧
    (update_order_total db it).nextId = db.nextId := by
  unfold update_order_total
  cases db.orderById it.order with
  | none => exact ⟨rfl, rfl, rfl⟩
  | some row =>
    have h1 := saveOrder_frame db row
    have h2 := saveOrder_frame (db.saveOrder row) row
    simp only [calculate_total]
    exact ⟨h2.1.trans h1.1, h2.2.1.trans h1.2.1, h2.2.2.2.2.trans h1.2.2.2.2⟩

theorem fireItemDeleteSignals_frame :
    ∀ (l : List OrderItem) (db : DB),
      (fireItemDeleteSignals db l).products = db.products ∧
      (fireItemDeleteSignals db l).orderItems = db.orderItems := by
  intro l
  induction l with
  | nil => intro db; exact ⟨rfl, rfl⟩
  | cons a t ih =>
    intro db
    have h1 := update_order_total_frame db a
    have h2 := ih (update_order_total db a)
    exact ⟨h2.1.trans h1.1, h2.2.trans h1.2.1⟩

theorem orderCreateLoop_inv (oid : Nat) :
    ∀ (l : List OrderItemInput) (d d' : DB), orderCreateLoop oid d l = .ok d' →
      d'.products = d.products ∧
      ∀ j ∈ d'.orderItems, j ∈ d.orderItems ∨
        ∃ p ∈ d.products, p.product_id = j.product ∧ j.price_at_order = p.price := by
  intro l
  induction l with
  | nil =>
    intro d d' h
    unfold orderCreateLoop at h
    cases h
    exact ⟨rfl, fun j hj => .inl hj⟩
  | cons a t ih =>
    intro d d' h
    unfold orderCreateLoop at h
    cases hp : d.productById a.product with
    | none => rw [hp] at h; cases h
    | some p =>
      rw [hp] at h
      unfold orderItemCreate at h
      obtain ⟨hprod, hitems⟩ := ih _ d' h
      have hf := update_order_total_frame
        { d with orderItems := d.orderItems ++ [⟨d.nextId, oid, a.product, a.quantity, p.price⟩],
                 nextId := d.nextId + 1 }
        ⟨d.nextId, oid, a.product, a.quantity, p.price⟩
      constructor
      · rw [hprod, hf.1]
      · intro j hj
        rcases hitems j hj with hmem | ⟨q, hq, hqe, hqp⟩
        · rw [hf.2.1] at hmem
          simp only [List.mem_append, List.mem_singleton] at hmem
          rcases hmem with hold | hnew
          · exact .inl hold
          · subst hnew
            refine .inr ⟨p, List.mem_of_find?_eq_some hp, ?_, rfl⟩
            have hb := List.find?_some hp
            show p.product_id = a.product
            exact beq_iff_eq.mp hb
        · rw [hf.1] at hq
          exact .inr ⟨q, hq, hqe, hqp⟩

theorem orderUpdateLoop_ok (oid : Nat) :
    ∀ (l : List OrderItemInput) (d d' : DB), orderUpdateLoop oid d l = .ok d' →
      l = [] ∧ d' = d := by
  intro l
  cases l with
  | nil =>
    intro d d' h
    unfold orderUpdateLoop at h
    cases h
    exact ⟨rfl, rfl⟩
  | cons a t =>
    intro d d' h
    unfold orderUpdateLoop orderItemCreate at h
    cases h

/-- Claim C4: price_at_order is fixed at creation time to the price of the
referenced product at that instant and never changes afterward: after any
successful order-touching operation (order creation, order update, product
price change), every persisted OrderItem either already existed with the
same record, or was created in this operation with price_at_order equal to
the price its product had in the pre-state. -/
theorem price_at_order_is_snapshot (db : DB) (op : OrderOp) (db' : DB)
    (h : applyOrderOp db op = .ok db') :
    ∀ j ∈ db'.orderItems, j ∈ db.orderItems ∨
      ∃ p ∈ db.products, p.product_id = j.product ∧ j.price_at_order = p.price := by
  cases op with
  | createOrder u its st =>
    simp only [applyOrderOp, order_create] at h
    split at h
    · cases h
    · rename_i db2 hl
      simp only [calculate_total] at h
      cases h
      obtain ⟨hprod, hitems⟩ := orderCreateLoop_inv _ _ _ _ hl
      intro j hj
      have f1 := saveOrder_frame db2 ⟨db.nextId, u, 0, st⟩
      have f2 := saveOrder_frame (db2.saveOrder ⟨db.nextId, u, 0, st⟩) ⟨db.nextId, u, 0, st⟩
      rw [f2.2.1, f1.2.1] at hj
      exact hitems j hj
  | updateOrder oid its =>
    simp only [applyOrderOp, order_update] at h
    split at h
    · cases h
    · rename_i row hrow
      split at h
      · cases h
      · rename_i db2 hstep
        simp only [calculate_total] at h
        cases h
        intro j hj
        have f1 := saveOrder_frame db2 row
        have f2 := saveOrder_frame (db2.saveOrder row) row
        rw [f2.2.1, f1.2.1] at hj
        cases its with
        | none =>
          simp only at hstep
          cases hstep
          exact .inl hj
        | some list =>
          simp only at hstep
          obtain ⟨hnil, hdd⟩ := orderUpdateLoop_ok _ _ _ _ hstep
          subst hdd
          have f3 := fireItemDeleteSignals_frame (db.itemsOfOrder oid)
            { db with orderItems := db.orderItems.filter (fun it => !(it.order == oid)) }
          rw [f3.2] at hj
          exact .inl (List.mem_filter.mp hj).1
  | setPrice pid pr =>
    simp only [applyOrderOp, product_set_price] at h
    split at h
    · cases h
    · split at h
      · cases h
      · cases h
        intro j hj
        exact .inl hj

/-- Claim C10: Order.calculate_total computes and returns the sum of
price_at_order times quantity over the items of the order and writes it
only to the non-field attribute total_price of the in-memory instance, so
the persisted total_amount of the order row after the call equals its value
before the call. -/
theorem calculate_total_leaves_total_amount (db : DB) (oid : Nat) (row : Order)
    (h : db.orderById oid = some row) :
    (calculate_total db ⟨row, none⟩).1 = db.orderItemsSum oid
    ∧ (calculate_total db ⟨row, none⟩).2.1 = ⟨row, some (db.orderItemsSum oid)⟩
    ∧ ((calculate_total db ⟨row, none⟩).2.2).orderById oid = some row := by
  have h' : db.orders.find? (fun o => o.order_id == oid) = some row := h
  have hro : row.order_id = oid := by
    have hb := List.find?_some h'
    simpa using hb
  subst hro
  refine ⟨rfl, rfl, ?_⟩
  have hself : (row.order_id == row.order_id) = true := by simp
  simp only [calculate_total, DB.saveOrder, DB.orderById] at *
  rw [h]
  simp only [Option.isSome_some, if_pos]
  exact find?_map_update _ _ row hself db.orders row h hself

theorem update_product_rating_spec (db : DB) (pid : Nat) :
    (update_product_rating db pid).ratingOf pid =
      some ⟨pid, ratingSpecAvg db pid, ratingSpecCount db pid⟩
    ∧ (update_product_rating db pid).reviews = db.reviews := by
  have havg :
      (if (db.reviewsOf pid).isEmpty then (none : Option ℚ)
       else some ((((db.reviewsOf pid).map (fun r => (r.rating : ℚ))).sum) / ((db.reviewsOf pid).length : ℚ))).getD 0
        = ratingSpecAvg db pid := by
    by_cases hemp : (db.reviewsOf pid).isEmpty = true
    · have hlen := List.isEmpty_iff_length_eq_zero.mp hemp
      simp [hemp, ratingSpecAvg, hlen]
    · have hlen : ¬((db.reviewsOf pid).length = 0) := fun hc =>
        hemp (List.isEmpty_iff_length_eq_zero.mpr hc)
      simp [hemp, ratingSpecAvg, hlen]
  cases hr : db.ratingOf pid with
  | none =>
    constructor
    · show DB.ratingOf _ pid = _
      unfold DB.ratingOf
      simp only [update_product_rating, hr]
      unfold DB.ratingOf at hr
      rw [List.find?_append, hr]
      simp only [Option.none_or, List.find?_cons, beq_self_eq_true]
      rw [havg]
      rfl
    · simp only [update_product_rating, hr]
  | some pr =>
    have hr' : db.productRatings.find? (fun r => r.product == pid) = some pr := hr
    have hpp : pr.product = pid := by
      have hb := List.find?_some hr'
      simpa using hb
    constructor
    · show DB.ratingOf _ pid = _
      unfold DB.ratingOf
      simp only [update_product_rating, hr, DB.saveRating]
      have hy : ((⟨pr.product, ratingSpecAvg db pid, ratingSpecCount db pid⟩ : ProductRating).product == pid) = true := by
        simp [hpp]
      have hfind := find?_map_update (fun r => r.product == pid) (fun r => r.product == pr.product)
        ⟨pr.product, ratingSpecAvg db pid, ratingSpecCount db pid⟩ hy db.productRatings pr hr' (by simp)
      rw [havg]
      rw [show ratingSpecCount db pid = (db.reviewsOf pid).length from rfl] at hfind
      rw [hfind, hpp]
      rfl
    · simp only [update_product_rating, hr, DB.saveRating]

theorem ratingSpec_congr (d1 d2 : DB) (pid : Nat) (h : d1.reviews = d2.reviews) :
    ratingSpecAvg d1 pid = ratingSpecAvg d2 pid ∧ ratingSpecCount d1 pid = ratingSpecCount d2 pid := by
  unfold ratingSpecAvg ratingSpecCount DB.reviewsOf
  rw [h]
  exact ⟨rfl, rfl⟩

/-- Claim C5: any creation, update or deletion of a Review of a product
fully recomputes that ProductRating from the then-current review set: the
stored average_rating is the mean of the rating values (0.0 when there are
none) and total_ratings is their count. -/
theorem product_rating_recomputed :
    (∀ db pid u rt c,
      (review_create db pid u rt c).ratingOf pid =
        some ⟨pid, ratingSpecAvg (review_create db pid u rt c) pid,
                   ratingSpecCount (review_create db pid u rt c) pid⟩)
    ∧ (∀ db rid rt r, db.reviewById rid = some r →
      (review_update_rating db rid rt).ratingOf r.product =
        some ⟨r.product, ratingSpecAvg (review_update_rating db rid rt) r.product,
                         ratingSpecCount (review_update_rating db rid rt) r.product⟩)
    ∧ (∀ db rid r, db.reviewById rid = some r →
      (review_delete db rid).ratingOf r.product =
        some ⟨r.product, ratingSpecAvg (review_delete db rid) r.product,
                         ratingSpecCount (review_delete db rid) r.product⟩) := by
  refine ⟨?_, ?_, ?_⟩
  · intro db pid u rt c
    show (update_product_rating _ pid).ratingOf pid = _
    obtain ⟨h1, h2⟩ := update_product_rating_spec
      { db with reviews := db.reviews ++ [⟨db.nextId, pid, u, rt, c⟩], nextId := db.nextId + 1 } pid
    rw [h1]
    obtain ⟨ha, hc⟩ := ratingSpec_congr _ _ pid h2.symm
    rw [ha, hc]
    rfl
  · intro db rid rt r h
    simp only [review_update_rating, h]
    obtain ⟨h1, h2⟩ := update_product_rating_spec
      { db with reviews := db.reviews.map (fun x => if x.review_id == rid then { x with rating := rt } else x) }
      r.product
    rw [h1]
    obtain ⟨ha, hc⟩ := ratingSpec_congr _ _ r.product h2.symm
    rw [ha, hc]
  · intro db rid r h
    simp only [review_delete, h]
    obtain ⟨h1, h2⟩ := update_product_rating_spec
      { db with reviews := db.reviews.filter (fun x => !(x.review_id == rid)) } r.product
    rw [h1]
    obtain ⟨ha, hc⟩ := ratingSpec_congr _ _ r.product h2.symm
    rw [ha, hc]

theorem wishlist_toggle_flips (db : DB) (u p : Nat) :
    wishlistHas (wishlist_toggle db u p) u p = !(wishlistHas db u p) := by
  cases hw : db.wishlists.find? (fun w => w.user == u) with
  | none =>
    have hfa : (db.wishlists ++ [(⟨db.nextId, u, [p]⟩ : Wishlist)]).find? (fun w => w.user == u)
        = some ⟨db.nextId, u, [p]⟩ := by
      rw [List.find?_append, hw]
      simp
    simp [wishlistHas, wishlist_toggle, hw, hfa]
  | some w =>
    have hu : w.user = u := by
      have hb := List.find?_some hw
      simpa using hb
    by_cases hmem : p ∈ w.products
    · have hy : (((⟨w.wishlist_id, w.user, w.products.filter (fun x => !(x == p))⟩ : Wishlist)).user == u) = true := by
        simp [hu]
      have hfind := find?_map_update (fun r => r.user == u) (fun r => r.wishlist_id == w.wishlist_id)
        ⟨w.wishlist_id, w.user, w.products.filter (fun x => !(x == p))⟩ hy db.wishlists w hw (by simp)
      simp only [wishlistHas, wishlist_toggle, hw, if_pos hmem, DB.saveWishlist]
      simp only [hfind]
      simp [List.mem_filter, hmem]
    · have hy : (((⟨w.wishlist_id, w.user, w.products ++ [p]⟩ : Wishlist)).user == u) = true := by
        simp [hu]
      have hfind := find?_map_update (fun r => r.user == u) (fun r => r.wishlist_id == w.wishlist_id)
        ⟨w.wishlist_id, w.user, w.products ++ [p]⟩ hy db.wishlists w hw (by simp)
      simp only [wishlistHas, wishlist_toggle, hw, if_neg hmem, DB.saveWishlist]
      simp only [hfind]
      simp [hmem]

/-- Claim C6: the wishlist toggle obeys XOR-membership semantics — after a
toggle the product is a member exactly when it was not one before (with the
wishlist created on first use) — and toggling the same pair twice returns
the wishlist to its original membership state. -/
theorem wishlist_toggle_xor_involution (db : DB) (u p : Nat) :
    wishlistHas (wishlist_toggle db u p) u p = !(wishlistHas db u p)
    ∧ wishlistHas (wishlist_toggle (wishlist_toggle db u p) u p) u p = wishlistHas db u p := by
  refine ⟨wishlist_toggle_flips db u p, ?_⟩
  rw [wishlist_toggle_flips (wishlist_toggle db u p) u p, wishlist_toggle_flips db u p,
    Bool.not_not]

/-- Claim C1: the persisted Order.total_amount does not track the item sum.
Creating an order for items [(P1 price 10, qty 2), (P2 price 5, qty 1)]
leaves the stored total_amount at its default 0.00 while the sum of
price_at_order times quantity over the committed items is 25:
calculate_total assigns the computed sum to the non-field attribute
total_price, so every save persists the unchanged total_amount. -/
theorem order_total_amount_stays_zero :
    (order_create dbOrderEx 7 [⟨1, 2⟩, ⟨2, 1⟩] "pending").map (fun d =>
      ((d.orderById 3).map Order.total_amount, d.orderItemsSum 3))
    = .ok (some 0, 25) := by decide

/-- Claim C2: merge_carts raises instead of merging.  With the destination
cart holding product 1 at quantity 3 and the source cart holding the same
product at quantity 2, the call fails with an AttributeError, because the
service reads session_cart.cartitems while the declared reverse relation on
CartItem is named items; no quantities are added and the source cart is not
deleted. -/
theorem merge_carts_raises_attribute_error :
    merge_carts dbMergeEx 1 2
      = .error "AttributeError: Cart object has no attribute cartitems" := by decide

/-- Claim C7: the cart-merge trigger is a silent no-op when the session has
no key or no guest cart carries the key, but merging an existing source
cart with no items at all does error, again with the AttributeError raised
by the undeclared cartitems accessor, instead of completing as a no-op. -/
theorem cart_merge_trigger_errors_on_empty_source :
    handle_cart_merge dbEmptyMergeEx 7 none = .ok dbEmptyMergeEx
    ∧ handle_cart_merge dbEmptyMergeEx 7 (some "absent") = .ok dbEmptyMergeEx
    ∧ handle_cart_merge dbEmptyMergeEx 7 (some "sess")
        = .error "AttributeError: Cart object has no attribute cartitems" := by decide

/-- Claim C8: replacing the item list of an order fails instead of
succeeding: the recreate loop calls OrderItem.objects.create with product
and quantity only, so the NOT NULL column price_at_order is unset and the
atomic block rolls the whole update back with an IntegrityError.  On the
one succeeding replacement input, the empty list, all items are deleted yet
the stored total_amount still holds its old value 10.00 because
calculate_total never writes the total_amount field. -/
theorem order_update_fails_on_item_replacement :
    order_update dbOrderUpdEx 1 (some [⟨1, 2⟩])
      = .error "IntegrityError: NOT NULL constraint failed: api_orderitem.price_at_order"
    ∧ (order_update dbOrderUpdEx 1 (some [])).map (fun d =>
        ((d.orderById 1).map Order.total_amount, d.itemsOfOrder 1)) = .ok (some 10, []) := by decide

/-- Claim C3 counterexample: the cart-item quantity path does not replace.
On a cart whose item for product 1 stores quantity 3, supplying quantity 5
stores 8 (the sum), not 5; and a payload with the quantity field missing is
not rejected — the default 1 is added, storing 4. -/
theorem cart_quantity_update_not_replacement :
    (cart_update dbCartEx 1 [⟨"p", QtyInput.intVal 5, none⟩]).map (fun d =>
      (d.cartItems.find? (fun it => it.id == 5)).map CartItem.quantity) = .ok (some 8)
    ∧ (cart_update dbCartEx 1 [⟨"p", QtyInput.missing, none⟩]).map (fun d =>
      (d.cartItems.find? (fun it => it.id == 5)).map CartItem.quantity) = .ok (some 4) := by decide

/-- Claim C3 as amended: for an existing cart item, the quantity supplied
through the cart write path is added to the stored quantity (and is_active
is overwritten by its supplied or default value), not substituted for it; a
non-integer quantity is rejected as a validation error before any
persistence, while a missing quantity is not rejected but defaults to 1. -/
theorem cart_quantity_update_adds (db : DB) (cid : Nat) (s : String) (p : Product)
    (it : CartItem) (n : Nat) (a : Option Bool)
    (hp : db.productBySlug s = some p)
    (hit : db.cartItems.find? (fun r => r.cart == cid && r.product == p.product_id) = some it) :
    cart_update db cid [⟨s, QtyInput.intVal n, a⟩]
      = .ok (db.saveCartItem ⟨it.id, it.cart, it.product, it.quantity + n, a.getD true⟩)
    ∧ cart_update db cid [⟨s, QtyInput.nonInt, a⟩] = .error "A valid integer is required." := by
  constructor
  · simp only [cart_update, validateItems, hp, validateQuantity, cartUpdateLoop, hit]
  · simp only [cart_update, validateItems, hp, validateQuantity]

theorem cart_quantity_update_adds_witness :
    cart_update dbCartEx 1 [⟨"p", QtyInput.intVal 5, none⟩]
      = .ok (dbCartEx.saveCartItem ⟨5, 1, 1, 8, true⟩)
    ∧ cart_update dbCartEx 1 [⟨"p", QtyInput.nonInt, none⟩]
      = .error "A valid integer is required." :=
  cart_quantity_update_adds dbCartEx 1 "p" ⟨1, "P", 10, 5, "p"⟩ ⟨5, 1, 1, 3, true⟩ 5 none
    (by decide) (by decide)

theorem price_at_order_is_snapshot_witness :
    applyOrderOp dbSnapshotEx (.setPrice 1 3) = .ok dbSnapshotExAfter
    ∧ ∀ j ∈ dbSnapshotExAfter.orderItems, j ∈ dbSnapshotEx.orderItems ∨
        ∃ p ∈ dbSnapshotEx.products, p.product_id = j.product ∧ j.price_at_order = p.price :=
  ⟨by decide, price_at_order_is_snapshot dbSnapshotEx (.setPrice 1 3) dbSnapshotExAfter (by decide)⟩

theorem calculate_total_leaves_total_amount_witness :
    (calculate_total dbSnapshotEx ⟨⟨1, 7, 0, "pending"⟩, none⟩).1 = dbSnapshotEx.orderItemsSum 1
    ∧ (calculate_total dbSnapshotEx ⟨⟨1, 7, 0, "pending"⟩, none⟩).2.1
        = ⟨⟨1, 7, 0, "pending"⟩, some (dbSnapshotEx.orderItemsSum 1)⟩
    ∧ ((calculate_total dbSnapshotEx ⟨⟨1, 7, 0, "pending"⟩, none⟩).2.2).orderById 1
        = some ⟨1, 7, 0, "pending"⟩ :=
  calculate_total_leaves_total_amount dbSnapshotEx 1 ⟨1, 7, 0, "pending"⟩ (by decide)

theorem product_rating_recomputed_witness :
    (review_create dbReviewEx 1 9 3 "").ratingOf 1 =
      some ⟨1, ratingSpecAvg (review_create dbReviewEx 1 9 3 "") 1,
            ratingSpecCount (review_create dbReviewEx 1 9 3 "") 1⟩
    ∧ (review_update_rating dbReviewEx 3 2).ratingOf 1 =
      some ⟨1, ratingSpecAvg (review_update_rating dbReviewEx 3 2) 1,
            ratingSpecCount (review_update_rating dbReviewEx 3 2) 1⟩
    ∧ (review_delete dbReviewEx 4).ratingOf 1 =
      some ⟨1, ratingSpecAvg (review_delete dbReviewEx 4) 1,
            ratingSpecCount (review_delete dbReviewEx 4) 1⟩ :=
  ⟨product_rating_recomputed.1 dbReviewEx 1 9 3 "",
   product_rating_recomputed.2.1 dbReviewEx 3 2 ⟨3, 1, 7, 4, ""⟩ (by decide),
   product_rating_recomputed.2.2 dbReviewEx 4 ⟨4, 1, 8, 5, ""⟩ (by decide)⟩

/-- Claim C9: adding one unit of a product to a cart addressed by a cart
code with no existing cart creates the cart and one line item at quantity
1, and repeating the same request increments that single item to quantity 2
instead of inserting a duplicate row.  The freshness hypotheses say the
primary keys the two inserts draw from the id counter are not yet taken. -/
theorem add_to_cart_by_code (db : DB) (key s : String) (p : Product)
    (hcode : db.carts.find? (fun c => c.cart_code == some key) = none)
    (hp : db.productBySlug s = some p)
    (hfc : ∀ it ∈ db.cartItems, ¬(it.cart = db.nextId))
    (hfi : ∀ it ∈ db.cartItems, ¬(it.id = db.nextId + 1)) :
    ∃ d1 d2 : DB,
      cart_create_guest db key [⟨s, QtyInput.missing, none⟩] = .ok d1
      ∧ d1.carts.find? (fun c => c.cart_code == some key) = some ⟨db.nextId, none, some key⟩
      ∧ (d1.cartItems.filter (fun it => it.cart == db.nextId)).map (fun it => (it.product, it.quantity))
          = [(p.product_id, 1)]
      ∧ cart_create_guest d1 key [⟨s, QtyInput.missing, none⟩] = .ok d2
      ∧ (d2.cartItems.filter (fun it => it.cart == db.nextId)).map (fun it => (it.product, it.quantity))
          = [(p.product_id, 2)] := by
  refine ⟨{ db with carts := db.carts ++ [⟨db.nextId, none, some key⟩],
                    cartItems := db.cartItems ++ [⟨db.nextId + 1, db.nextId, p.product_id, 1, true⟩],
                    nextId := db.nextId + 2 },
          { db with carts := db.carts ++ [⟨db.nextId, none, some key⟩],
                    cartItems := (db.cartItems ++ [(⟨db.nextId + 1, db.nextId, p.product_id, 1, true⟩ : CartItem)]).map
                      (fun r => if r.id == db.nextId + 1 then (⟨db.nextId + 1, db.nextId, p.product_id, 2, true⟩ : CartItem) else r),
                    nextId := db.nextId + 2 },
          ?_, ?_, ?_, ?_, ?_⟩
  case _ =>
    have hfind0 : db.cartItems.find? (fun r => r.cart == db.nextId && r.product == p.product_id) = none := by
      apply List.find?_eq_none.mpr
      intro x hx h
      exact hfc x hx (beq_iff_eq.mp (((Bool.and_eq_true _ _).mp h).1))
    simp only [cart_create_guest, validateItems, hp, validateQuantity, hcode, cartUpdateLoop, hfind0]
    rfl
  case _ =>
    show (db.carts ++ [(⟨db.nextId, none, some key⟩ : Cart)]).find? (fun c => c.cart_code == some key) = _
    rw [List.find?_append, hcode]
    simp
  case _ =>
    have hfilter0 : db.cartItems.filter (fun it => it.cart == db.nextId) = [] := by
      apply List.filter_eq_nil_iff.mpr
      intro x hx h
      exact hfc x hx (beq_iff_eq.mp h)
    show ((db.cartItems ++ [(⟨db.nextId + 1, db.nextId, p.product_id, 1, true⟩ : CartItem)]).filter
        (fun it => it.cart == db.nextId)).map (fun it => (it.product, it.quantity)) = _
    rw [List.filter_append, hfilter0]
    simp
  case _ =>
    have hfind0 : db.cartItems.find? (fun r => r.cart == db.nextId && r.product == p.product_id) = none := by
      apply List.find?_eq_none.mpr
      intro x hx h
      exact hfc x hx (beq_iff_eq.mp (((Bool.and_eq_true _ _).mp h).1))
    have hfind1 : (db.cartItems ++ [(⟨db.nextId + 1, db.nextId, p.product_id, 1, true⟩ : CartItem)]).find?
        (fun r => r.cart == db.nextId && r.product == p.product_id)
        = some ⟨db.nextId + 1, db.nextId, p.product_id, 1, true⟩ := by
      rw [List.find?_append, hfind0]
      simp
    have h2b : (db.carts ++ [(⟨db.nextId, none, some key⟩ : Cart)]).find? (fun c => c.cart_code == some key)
        = some ⟨db.nextId, none, some key⟩ := by
      rw [List.find?_append, hcode]
      simp
    simp only [cart_create_guest, validateItems, validateQuantity]
    rw [show DB.productBySlug
        { db with carts := db.carts ++ [⟨db.nextId, none, some key⟩],
                  cartItems := db.cartItems ++ [⟨db.nextId + 1, db.nextId, p.product_id, 1, true⟩],
                  nextId := db.nextId + 2 } s = some p from hp]
    simp only [h2b, cartUpdateLoop, hfind1, DB.saveCartItem]
    rfl
  case _ =>
    have hfilter0 : db.cartItems.filter (fun it => it.cart == db.nextId) = [] := by
      apply List.filter_eq_nil_iff.mpr
      intro x hx h
      exact hfc x hx (beq_iff_eq.mp h)
    have hmap : db.cartItems.map
        (fun r => if r.id == db.nextId + 1 then (⟨db.nextId + 1, db.nextId, p.product_id, 2, true⟩ : CartItem) else r)
        = db.cartItems := by
      have := List.map_congr_left (l := db.cartItems)
        (f := fun r => if r.id == db.nextId + 1 then (⟨db.nextId + 1, db.nextId, p.product_id, 2, true⟩ : CartItem) else r)
        (g := id) (fun x hx => by
          have hne : (x.id == db.nextId + 1) = false := beq_eq_false_iff_ne.mpr (hfi x hx)
          simp [hne])
      rw [this, List.map_id]
    show (((db.cartItems ++ [(⟨db.nextId + 1, db.nextId, p.product_id, 1, true⟩ : CartItem)]).map
        (fun r => if r.id == db.nextId + 1 then (⟨db.nextId + 1, db.nextId, p.product_id, 2, true⟩ : CartItem) else r)).filter
        (fun it => it.cart == db.nextId)).map (fun it => (it.product, it.quantity)) = _
    rw [List.map_append, hmap]
    rw [List.filter_append, hfilter0]
    simp

theorem add_to_cart_by_code_witness :
    ∃ d1 d2 : DB,
      cart_create_guest dbAddEx "code" [⟨"p", QtyInput.missing, none⟩] = .ok d1
      ∧ d1.carts.find? (fun c => c.cart_code == some "code") = some ⟨dbAddEx.nextId, none, some "code"⟩
      ∧ (d1.cartItems.filter (fun it => it.cart == dbAddEx.nextId)).map (fun it => (it.product, it.quantity))
          = [(1, 1)]
      ∧ cart_create_guest d1 "code" [⟨"p", QtyInput.missing, none⟩] = .ok d2
      ∧ (d2.cartItems.filter (fun it => it.cart == dbAddEx.nextId)).map (fun it => (it.product, it.quantity))
          = [(1, 2)] :=
  add_to_cart_by_code dbAddEx "code" "p" ⟨1, "P", 10, 5, "p"⟩
    (by decide) (by decide) (by decide) (by decide)
